import Mathlib

/-!
Shallow embedding of the akwa_services booking/availability engine
(`mainapps/services`: `models.py`, `serializers.py`, `views.py`).

Conventions of the embedding:
* monetary values (`DecimalField`) are rationals (`Money := ℚ`);
* a `TimeField` is minutes since midnight (`TimeOfDay := ℕ`), so the
  Python `time.hour` attribute is `t / 60`;
* a `DateField` is an ordinal day number (`Day := ℕ`);
* a `DateTimeField` timestamp is an abstract `ℕ` tick;
* Python `None` becomes `Option`; Python truthiness of an optional
  decimal (`if x:` / `x or y`) is `none`-or-zero falsy, mirrored exactly;
* `random.choices(string.ascii_uppercase + string.digits, k=8)` is
  modelled by an arbitrary draw function `Fin 8 → Fin 36` supplied by
  the caller;
* the database tables are lists inside `MarketState`; Django querysets
  (`filter`/`exists`) become `List.filter`/`List.any`.
-/

namespace AkwaServices

abbrev Money : Type := Rat
abbrev TimeOfDay : Type := Nat
abbrev Day : Type := Nat

/-- `BookingStatus` text choices from `models.py`. -/
inductive BookingStatus where
  | pending
  | confirmed
  | in_progress
  | completed
  | cancelled
  | no_show
  | rescheduled
deriving DecidableEq

/-- `Service.pricing_type` choices from `models.py`. -/
inductive PricingType where
  | hourly
  | fixed
  | quote
  | package
deriving DecidableEq

/-- `ServiceProvider` model: the fields the booking/review core reads. -/
structure Provider where
  providerId : Nat
  currency : String
  average_rating : Money
  total_reviews : Nat
deriving DecidableEq

/-- `Service` model: the fields the booking/review core reads. -/
structure Service where
  serviceId : Nat
  providerId : Nat
  pricing_type : PricingType
  hourly_rate : Option Money
  fixed_price : Option Money
  minimum_charge : Option Money
  travel_charge : Money
  average_rating : Money
  total_reviews : Nat
deriving DecidableEq

/-- `ServiceAvailability` model (an availability slot). -/
structure Slot where
  slotId : Nat
  providerId : Nat
  serviceId : Option Nat
  date : Day
  start_time : TimeOfDay
  end_time : TimeOfDay
  is_available : Bool
  is_blocked : Bool
deriving DecidableEq

/-- `ServiceBooking` model: the fields the core reads or writes. -/
structure Booking where
  bookingId : Nat
  booking_reference : String
  serviceId : Nat
  providerId : Nat
  customer_user_id : String
  scheduled_date : Day
  scheduled_start_time : TimeOfDay
  scheduled_end_time : TimeOfDay
  quoted_price : Money
  final_price : Option Money
  travel_charge : Money
  material_cost : Money
  taxes : Money
  total_amount : Money
  currency : String
  status : BookingStatus
  booking_date : Nat
  confirmation_date : Option Nat
  completion_date : Option Nat
  cancellation_date : Option Nat
  actual_start_time : Option Nat
  actual_end_time : Option Nat
deriving DecidableEq

/-- `ServiceReview` model: the fields the review gate reads or writes. -/
structure Review where
  reviewId : Nat
  bookingId : Nat
  serviceId : Nat
  providerId : Nat
  reviewer_user_id : String
  rating : Nat
  is_published : Bool
deriving DecidableEq

/-- The persistent store: one list per Django table. -/
structure MarketState where
  providers : List Provider
  services : List Service
  slots : List Slot
  bookings : List Booking
  reviews : List Review
deriving DecidableEq

/-- Python truthiness fallback `x or y` on an optional decimal:
`None` and `Decimal 0` are falsy. -/
def pyOrMoney (x : Option Money) (y : Money) : Money :=
  match x with
  | none => y
  | some v => if v = 0 then y else v

/-- Python truthiness `if x:` on an optional decimal. -/
def moneyTruthy (x : Option Money) : Bool :=
  match x with
  | none => false
  | some v => decide (v ≠ 0)

/-- The 36-character alphabet `string.ascii_uppercase + string.digits`. -/
def refAlphabet : List Char :=
  [ 'A', 'B', 'C', 'D', 'E', 'F', 'G', 'H', 'I', 'J', 'K', 'L', 'M',
    'N', 'O', 'P', 'Q', 'R', 'S', 'T', 'U', 'V', 'W', 'X', 'Y', 'Z',
    '0', '1', '2', '3', '4', '5', '6', '7', '8', '9' ]

theorem refAlphabet_length : refAlphabet.length = 36 := by decide

/-- `ServiceBooking.generate_booking_reference`: `"SRV"` followed by
8 draws from `refAlphabet`; `rand` supplies the random draws. -/
def generate_booking_reference (rand : Fin 8 → Fin 36) : String :=
  let suffix : List Char :=
    (List.finRange 8).map
      (fun i => refAlphabet.get ((rand i).cast refAlphabet_length.symm))
  String.mk ("SRV".toList ++ suffix)

/-- `ServiceBooking.save` (`models.py` lines 579-591): assign a
reference when the field is falsy (empty), then recompute
`total_amount` from `(final_price or quoted_price) + travel_charge +
material_cost + taxes`. -/
def bookingSave (rand : Fin 8 → Fin 36) (b : Booking) : Booking :=
  let b1 :=
    if b.booking_reference = "" then
      { b with booking_reference := generate_booking_reference rand }
    else b
  { b1 with
    total_amount :=
      pyOrMoney b1.final_price b1.quoted_price +
        b1.travel_charge + b1.material_cost + b1.taxes }

/-- The single error class produced by the booking lifecycle actions
(`views.py` returns HTTP 400 with an error message in each guard). -/
inductive TransitionError where
  | invalidTransition
deriving DecidableEq

/-- Result of a lifecycle action: the persisted booking afterwards
(unchanged when the guard rejects) and the error, if any. -/
structure ActionResult where
  booking : Booking
  error : Option TransitionError
deriving DecidableEq

/-- `ServiceBookingViewSet.confirm` (`views.py` lines 483-499). -/
def confirmBooking (rand : Fin 8 → Fin 36) (now : Nat) (b : Booking) :
    ActionResult :=
  if b.status ≠ BookingStatus.pending then
    { booking := b, error := some TransitionError.invalidTransition }
  else
    { booking :=
        bookingSave rand
          { b with status := BookingStatus.confirmed
                   confirmation_date := some now }
      error := none }

/-- `ServiceBookingViewSet.cancel` (`views.py` lines 501-517). -/
def cancelBooking (rand : Fin 8 → Fin 36) (now : Nat) (b : Booking) :
    ActionResult :=
  if b.status = BookingStatus.completed ∨ b.status = BookingStatus.cancelled then
    { booking := b, error := some TransitionError.invalidTransition }
  else
    { booking :=
        bookingSave rand
          { b with status := BookingStatus.cancelled
                   cancellation_date := some now }
      error := none }

/-- `ServiceBookingViewSet.start_service` (`views.py` lines 519-535). -/
def startService (rand : Fin 8 → Fin 36) (now : Nat) (b : Booking) :
    ActionResult :=
  if b.status ≠ BookingStatus.confirmed then
    { booking := b, error := some TransitionError.invalidTransition }
  else
    { booking :=
        bookingSave rand
          { b with status := BookingStatus.in_progress
                   actual_start_time := some now }
      error := none }

/-- `ServiceBookingViewSet.complete_service` (`views.py` lines 537-563):
guard `status == in_progress`; then `final_price = request.data.get(..)`
is stored, and `total_amount` recomputed in the view, only when truthy;
finally the status/timestamp fields are set and the model `save` runs. -/
def completeService (rand : Fin 8 → Fin 36) (now : Nat)
    (final_price : Option Money) (b : Booking) : ActionResult :=
  if b.status ≠ BookingStatus.in_progress then
    { booking := b, error := some TransitionError.invalidTransition }
  else
    let b1 :=
      if moneyTruthy final_price then
        { b with final_price := final_price
                 total_amount :=
                   final_price.getD 0 + b.travel_charge +
                     b.material_cost + b.taxes }
      else b
    { booking :=
        bookingSave rand
          { b1 with status := BookingStatus.completed
                    actual_end_time := some now
                    completion_date := some now }
      error := none }

/-- A booking-creation request: the writable fields of
`ServiceBookingCreateSerializer` that the core logic reads. -/
structure BookingRequest where
  serviceId : Nat
  scheduled_date : Day
  scheduled_start_time : TimeOfDay
  scheduled_end_time : TimeOfDay
deriving DecidableEq

/-- Rejection causes of a booking-creation request: the three
`ValidationError` branches of `ServiceBookingCreateSerializer.validate`,
the related-field resolution failures, and the `TypeError` the `create`
pricing arithmetic raises when the pricing field for the declared
`pricing_type` is `None`. -/
inductive CreateError where
  | unknownService
  | pastDate
  | startNotBeforeEnd
  | slotUnavailableErr
  | brokenProviderRef
  | pricingCrash
deriving DecidableEq

/-- Result of a booking-creation request: the store afterwards
(unchanged on rejection), the created booking, and the error, if any. -/
structure CreateResult where
  state : MarketState
  booking : Option Booking
  error : Option CreateError
deriving DecidableEq

/-- The availability filter in `ServiceBookingCreateSerializer.validate`
(`serializers.py` lines 343-350): `service.availability` restricts to
slots whose `service` foreign key is this service, then
`date=`, `start_time__lte=`, `end_time__gte=`, `is_available=True`,
`is_blocked=False`. -/
def slotQualifies (svcId : Nat) (req : BookingRequest) (sl : Slot) : Bool :=
  (sl.serviceId == some svcId) &&
  (sl.date == req.scheduled_date) &&
  decide (sl.start_time ≤ req.scheduled_start_time) &&
  decide (req.scheduled_end_time ≤ sl.end_time) &&
  sl.is_available &&
  (!sl.is_blocked)

/-- The pricing computation of `ServiceBookingCreateSerializer.create`
(`serializers.py` lines 362-371): `hourly` multiplies `hourly_rate` by
`end_time.hour - start_time.hour`; `fixed` returns `fixed_price`;
otherwise `minimum_charge or Decimal(0)`. `none` models the `TypeError`
raised when the required decimal field is `None`. -/
def quotePrice (svc : Service) (s e : TimeOfDay) : Option Money :=
  match svc.pricing_type with
  | PricingType.hourly =>
      svc.hourly_rate.map
        (fun r => r * (((e / 60 : Nat) : Money) - ((s / 60 : Nat) : Money)))
  | PricingType.fixed => svc.fixed_price
  | _ => some (svc.minimum_charge.getD 0)

/-- `ServiceBookingCreateSerializer.validate` + `.create`
(`serializers.py` lines 330-383), as invoked by the booking endpoint:
resolve the service, run the three validation checks in source order,
then build the booking with the computed pricing, `status=pending`
(model default) and the provider's currency, and persist it through
`ServiceBooking.save`.  Nothing touches the consumed slot. -/
def createBooking (rand : Fin 8 → Fin 36) (nowTs : Nat) (today : Day)
    (userId : String) (st : MarketState) (req : BookingRequest) :
    CreateResult :=
  match st.services.find? (fun s => s.serviceId == req.serviceId) with
  | none => { state := st, booking := none, error := some CreateError.unknownService }
  | some svc =>
    if req.scheduled_date < today then
      { state := st, booking := none, error := some CreateError.pastDate }
    else if req.scheduled_end_time ≤ req.scheduled_start_time then
      { state := st, booking := none, error := some CreateError.startNotBeforeEnd }
    else if !(st.slots.any (slotQualifies svc.serviceId req)) then
      { state := st, booking := none, error := some CreateError.slotUnavailableErr }
    else
      match st.providers.find? (fun p => p.providerId == svc.providerId) with
      | none => { state := st, booking := none, error := some CreateError.brokenProviderRef }
      | some prov =>
        match quotePrice svc req.scheduled_start_time req.scheduled_end_time with
        | none => { state := st, booking := none, error := some CreateError.pricingCrash }
        | some q =>
          let b := bookingSave rand
            { bookingId := st.bookings.length
              booking_reference := ""
              serviceId := svc.serviceId
              providerId := svc.providerId
              customer_user_id := userId
              scheduled_date := req.scheduled_date
              scheduled_start_time := req.scheduled_start_time
              scheduled_end_time := req.scheduled_end_time
              quoted_price := q
              final_price := none
              travel_charge := svc.travel_charge
              material_cost := 0
              taxes := 0
              total_amount := q + svc.travel_charge
              currency := prov.currency
              status := BookingStatus.pending
              booking_date := nowTs
              confirmation_date := none
              completion_date := none
              cancellation_date := none
              actual_start_time := none
              actual_end_time := none }
          { state := { st with bookings := st.bookings ++ [b] }
            booking := some b
            error := none }

/-- Rejection causes of a review submission: the three
`ValidationError` branches of
`ServiceReviewCreateSerializer.validate_booking` plus related-field
resolution failure. -/
inductive ReviewError where
  | unknownBooking
  | notYourBooking
  | notCompleted
  | alreadyReviewed
deriving DecidableEq

/-- Result of a review submission: the store afterwards (unchanged on
rejection), the created review, and the error, if any. -/
structure ReviewResult where
  state : MarketState
  review : Option Review
  error : Option ReviewError
deriving DecidableEq

/-- `ServiceReviewCreateSerializer.validate_booking` + `.create`
(`serializers.py` lines 424-451): resolve the booking; reject unless
the requesting user is the booking's customer, the booking is
`completed`, and no review row is linked to it (`hasattr(value,
'review')` on the one-to-one); then insert the review with
`service`/`provider`/reviewer copied from the booking.  Nothing touches
the stored `average_rating`/`total_reviews` of the service or the
provider. -/
def submitReview (userId : String) (st : MarketState) (bookingId : Nat)
    (rating : Nat) : ReviewResult :=
  match st.bookings.find? (fun b => b.bookingId == bookingId) with
  | none => { state := st, review := none, error := some ReviewError.unknownBooking }
  | some b =>
    if b.customer_user_id ≠ userId then
      { state := st, review := none, error := some ReviewError.notYourBooking }
    else if b.status ≠ BookingStatus.completed then
      { state := st, review := none, error := some ReviewError.notCompleted }
    else if st.reviews.any (fun r => r.bookingId == bookingId) then
      { state := st, review := none, error := some ReviewError.alreadyReviewed }
    else
      let rv : Review :=
        { reviewId := st.reviews.length
          bookingId := bookingId
          serviceId := b.serviceId
          providerId := b.providerId
          reviewer_user_id := userId
          rating := rating
          is_published := true }
      { state := { st with reviews := st.reviews ++ [rv] }
        review := some rv
        error := none }

/-- Ratings of the published reviews of a service in a store. -/
def publishedServiceRatings (st : MarketState) (svcId : Nat) : List Nat :=
  (st.reviews.filter (fun r => (r.serviceId == svcId) && r.is_published)).map
    (fun r => r.rating)

/-- Number of reviews linked to a given booking in a store. -/
def reviewCountFor (st : MarketState) (bookingId : Nat) : Nat :=
  (st.reviews.filter (fun r => r.bookingId == bookingId)).length

/-- Follows the claim C3 and spec section 4.2 words: hourly price =
`hourly_rate × ceil(duration_hours)` for the window `[s, e)` in
minutes, fractional hours rounding up. -/
def specHourlyQuote (rate : Money) (s e : TimeOfDay) : Money :=
  rate * (((e - s + 59) / 60 : Nat) : Money)

/-- Follows the claim C6 words: a slot qualifies iff it belongs to the
requested service, or to its provider when no service-level slot is
present in the store, its interval contains the requested window, and
it is bookable. -/
def specSlotQualifies (st : MarketState) (svc : Service)
    (req : BookingRequest) (sl : Slot) : Bool :=
  ((sl.serviceId == some svc.serviceId) ||
    ((sl.serviceId == none) && (sl.providerId == svc.providerId) &&
      !(st.slots.any (fun s2 => s2.serviceId == some svc.serviceId)))) &&
  (sl.date == req.scheduled_date) &&
  decide (sl.start_time ≤ req.scheduled_start_time) &&
  decide (req.scheduled_end_time ≤ sl.end_time) &&
  sl.is_available &&
  (!sl.is_blocked)

/-! Concrete fixtures used by witnesses and counterexamples. -/

/-- A fixed draw function for the booking-reference generator. -/
def rand0 : Fin 8 → Fin 36 := fun _ => 0

def provider1 : Provider :=
  { providerId := 1, currency := "NGN", average_rating := 0, total_reviews := 0 }

/-- The spec section 8 scenario service: hourly at 50.00 with a 5.00
travel charge. -/
def hourlyService : Service :=
  { serviceId := 10, providerId := 1, pricing_type := PricingType.hourly
    hourly_rate := some 50, fixed_price := none, minimum_charge := none
    travel_charge := 5, average_rating := 0, total_reviews := 0 }

/-- Service-level slot on day 100, 09:00-10:00, bookable. -/
def slot9to10 : Slot :=
  { slotId := 100, providerId := 1, serviceId := some 10, date := 100
    start_time := 540, end_time := 600, is_available := true, is_blocked := false }

/-- Service-level slot on day 100, 09:00-11:00, bookable. -/
def slot9to11 : Slot :=
  { slotId := 101, providerId := 1, serviceId := some 10, date := 100
    start_time := 540, end_time := 660, is_available := true, is_blocked := false }

/-- Provider-level slot (no service foreign key) on day 100,
09:00-10:00, bookable. -/
def providerOnlySlot : Slot :=
  { slotId := 102, providerId := 1, serviceId := none, date := 100
    start_time := 540, end_time := 600, is_available := true, is_blocked := false }

def baseState : MarketState :=
  { providers := [provider1], services := [hourlyService]
    slots := [slot9to10], bookings := [], reviews := [] }

def wideState : MarketState :=
  { providers := [provider1], services := [hourlyService]
    slots := [slot9to11], bookings := [], reviews := [] }

def provSlotState : MarketState :=
  { providers := [provider1], services := [hourlyService]
    slots := [providerOnlySlot], bookings := [], reviews := [] }

/-- Request for day 100, 09:00-10:00, on the hourly service. -/
def req9to10 : BookingRequest :=
  { serviceId := 10, scheduled_date := 100
    scheduled_start_time := 540, scheduled_end_time := 600 }

/-- Request for day 100, 09:00-10:30 (a fractional 1.5 hours). -/
def req9to1030 : BookingRequest :=
  { serviceId := 10, scheduled_date := 100
    scheduled_start_time := 540, scheduled_end_time := 630 }

/-- A persisted booking fixture with an assigned reference. -/
def baseBooking : Booking :=
  { bookingId := 0, booking_reference := "SRVAAAAAAAA"
    serviceId := 10, providerId := 1, customer_user_id := "u1"
    scheduled_date := 100, scheduled_start_time := 540, scheduled_end_time := 600
    quoted_price := 10, final_price := none, travel_charge := 0
    material_cost := 0, taxes := 0, total_amount := 10, currency := "NGN"
    status := BookingStatus.pending, booking_date := 0
    confirmation_date := none, completion_date := none
    cancellation_date := none, actual_start_time := none, actual_end_time := none }

/-! Helper lemmas. -/

/-- `ServiceBooking.save` never changes `status`. -/
theorem bookingSave_status (rand : Fin 8 → Fin 36) (b : Booking) :
    (bookingSave rand b).status = b.status := by
  unfold bookingSave
  by_cases h : b.booking_reference = "" <;> simp [h]

/-- `ServiceBooking.save` never changes `final_price`. -/
theorem bookingSave_final_price (rand : Fin 8 → Fin 36) (b : Booking) :
    (bookingSave rand b).final_price = b.final_price := by
  unfold bookingSave
  by_cases h : b.booking_reference = "" <;> simp [h]

/-- `ServiceBooking.save` never changes `confirmation_date`. -/
theorem bookingSave_confirmation_date (rand : Fin 8 → Fin 36) (b : Booking) :
    (bookingSave rand b).confirmation_date = b.confirmation_date := by
  unfold bookingSave
  by_cases h : b.booking_reference = "" <;> simp [h]

/-- `ServiceBooking.save` never changes `cancellation_date`. -/
theorem bookingSave_cancellation_date (rand : Fin 8 → Fin 36) (b : Booking) :
    (bookingSave rand b).cancellation_date = b.cancellation_date := by
  unfold bookingSave
  by_cases h : b.booking_reference = "" <;> simp [h]

/-- `ServiceBooking.save` never changes `completion_date`. -/
theorem bookingSave_completion_date (rand : Fin 8 → Fin 36) (b : Booking) :
    (bookingSave rand b).completion_date = b.completion_date := by
  unfold bookingSave
  by_cases h : b.booking_reference = "" <;> simp [h]

/-- `ServiceBooking.save` never changes `actual_start_time`. -/
theorem bookingSave_actual_start_time (rand : Fin 8 → Fin 36) (b : Booking) :
    (bookingSave rand b).actual_start_time = b.actual_start_time := by
  unfold bookingSave
  by_cases h : b.booking_reference = "" <;> simp [h]

/-- `ServiceBooking.save` never changes `actual_end_time`. -/
theorem bookingSave_actual_end_time (rand : Fin 8 → Fin 36) (b : Booking) :
    (bookingSave rand b).actual_end_time = b.actual_end_time := by
  unfold bookingSave
  by_cases h : b.booking_reference = "" <;> simp [h]

/-- The `total_amount` written by `ServiceBooking.save`. -/
theorem bookingSave_total (rand : Fin 8 → Fin 36) (b : Booking) :
    (bookingSave rand b).total_amount =
      pyOrMoney b.final_price b.quoted_price +
        b.travel_charge + b.material_cost + b.taxes := by
  unfold bookingSave
  by_cases h : b.booking_reference = "" <;> simp [h]

/-- Every character of the generator alphabet is an uppercase letter or
a digit. -/
theorem refAlphabet_chars :
    ∀ c ∈ refAlphabet, ('A' ≤ c ∧ c ≤ 'Z') ∨ ('0' ≤ c ∧ c ≤ '9') := by
  decide

/-! Claim theorems. -/

/-- Claim C2, amended: after every `ServiceBooking.save`, `total_amount`
equals `(final_price if it is set and nonzero, else quoted_price) +
travel_charge + material_cost + taxes`; a zero `final_price` falls back
to `quoted_price` because the source uses Python `or` truthiness. -/
theorem claim_C2_total_invariant (rand : Fin 8 → Fin 36) (b : Booking) :
    (bookingSave rand b).total_amount =
      (match b.final_price with
       | some v => if v = 0 then b.quoted_price else v
       | none => b.quoted_price) +
        b.travel_charge + b.material_cost + b.taxes := by
  rw [bookingSave_total]
  rcases hf : b.final_price with _ | v
  · simp [pyOrMoney]
  · by_cases hv : v = 0 <;> simp [pyOrMoney, hv]

/-- A booking fixture whose `final_price` is a set, zero amount. -/
def bookingZeroFinal : Booking := { baseBooking with final_price := some 0 }

/-- Claim C2 counterexample: for a booking with `final_price = 0` and
`quoted_price = 10`, the persisted `total_amount` is `10`, not the
`final_price + charges = 0` the claim requires whenever `final_price`
is set. -/
theorem claim_C2_counterexample :
    ¬ ((bookingSave rand0 bookingZeroFinal).total_amount =
        bookingZeroFinal.final_price.getD bookingZeroFinal.quoted_price +
          bookingZeroFinal.travel_charge + bookingZeroFinal.material_cost +
          bookingZeroFinal.taxes) := by
  rw [bookingSave_total]
  simp only [bookingZeroFinal, baseBooking, pyOrMoney]
  norm_num

/-- Claim C9: a save on a booking with no reference assigns one of the
form `"SRV"` followed by exactly 8 characters drawn from `A`-`Z` and
`0`-`9`; a save on a booking with a non-empty reference keeps it. -/
theorem claim_C9_reference_format (rand : Fin 8 → Fin 36) (b : Booking) :
    (b.booking_reference = "" →
      ∃ l : List Char,
        (bookingSave rand b).booking_reference.toList = 'S' :: 'R' :: 'V' :: l ∧
        l.length = 8 ∧
        ∀ c ∈ l, ('A' ≤ c ∧ c ≤ 'Z') ∨ ('0' ≤ c ∧ c ≤ '9')) ∧
    (b.booking_reference ≠ "" →
      (bookingSave rand b).booking_reference = b.booking_reference) := by
  constructor
  · intro h
    refine ⟨(List.finRange 8).map
      (fun i => refAlphabet.get ((rand i).cast refAlphabet_length.symm)), ?_, ?_, ?_⟩
    · simp [bookingSave, h, generate_booking_reference]
    · simp
    · intro c hc
      simp only [List.mem_map] at hc
      obtain ⟨i, _, hi⟩ := hc
      have hmem : c ∈ refAlphabet := by
        subst hi
        exact List.get_mem _ _ _
      exact refAlphabet_chars c hmem
  · intro h
    simp [bookingSave, h]

/-- Claim C9 witness at concrete inputs: a blank-reference booking gets
a well-formed reference, and the fixture's reference survives a save. -/
theorem claim_C9_witness :
    (∃ l : List Char,
      (bookingSave rand0 { baseBooking with booking_reference := "" }).booking_reference.toList =
        'S' :: 'R' :: 'V' :: l ∧
      l.length = 8 ∧
      ∀ c ∈ l, ('A' ≤ c ∧ c ≤ 'Z') ∨ ('0' ≤ c ∧ c ≤ '9')) ∧
    (bookingSave rand0 baseBooking).booking_reference = "SRVAAAAAAAA" := by
  constructor
  · exact (claim_C9_reference_format rand0 _).1 rfl
  · exact (claim_C9_reference_format rand0 baseBooking).2 (by decide)

/-- Claim C4: each lifecycle action succeeds exactly when its guard
holds (confirm: `pending`; cancel: not `completed`/`cancelled`; start:
`confirmed`; complete: `in_progress`); a guard violation yields the
`InvalidTransition` rejection with the booking left unchanged. -/
theorem claim_C4_transition_guards (rand : Fin 8 → Fin 36) (now : Nat)
    (fp : Option Money) (b : Booking) :
    ((confirmBooking rand now b).error = none ↔ b.status = BookingStatus.pending) ∧
    (b.status ≠ BookingStatus.pending →
      confirmBooking rand now b =
        { booking := b, error := some TransitionError.invalidTransition }) ∧
    ((cancelBooking rand now b).error = none ↔
      (b.status ≠ BookingStatus.completed ∧ b.status ≠ BookingStatus.cancelled)) ∧
    (b.status = BookingStatus.completed ∨ b.status = BookingStatus.cancelled →
      cancelBooking rand now b =
        { booking := b, error := some TransitionError.invalidTransition }) ∧
    ((startService rand now b).error = none ↔ b.status = BookingStatus.confirmed) ∧
    (b.status ≠ BookingStatus.confirmed →
      startService rand now b =
        { booking := b, error := some TransitionError.invalidTransition }) ∧
    ((completeService rand now fp b).error = none ↔
      b.status = BookingStatus.in_progress) ∧
    (b.status ≠ BookingStatus.in_progress →
      completeService rand now fp b =
        { booking := b, error := some TransitionError.invalidTransition }) := by
  refine ⟨?_, ?_, ?_, ?_, ?_, ?_, ?_, ?_⟩
  · by_cases h : b.status = BookingStatus.pending <;> simp [confirmBooking, h]
  · intro h
    simp [confirmBooking, h]
  · by_cases h : b.status = BookingStatus.completed ∨ b.status = BookingStatus.cancelled
    · simp only [cancelBooking, if_pos h]
      simp only [Option.some_ne_none, false_iff]
      rcases h with h | h <;> simp [h]
    · push_neg at h
      simp [cancelBooking, h.1, h.2]
  · intro h
    simp [cancelBooking, h]
  · by_cases h : b.status = BookingStatus.confirmed <;> simp [startService, h]
  · intro h
    simp [startService, h]
  · by_cases h : b.status = BookingStatus.in_progress <;> simp [completeService, h]
  · intro h
    simp [completeService, h]

/-- A cancelled booking fixture. -/
def cancelledBooking : Booking := { baseBooking with status := BookingStatus.cancelled }

/-- Claim C4 witness at a concrete input: on a cancelled booking,
confirm and cancel are both rejected as `InvalidTransition` with the
booking unchanged. -/
theorem claim_C4_witness :
    confirmBooking rand0 0 cancelledBooking =
      { booking := cancelledBooking, error := some TransitionError.invalidTransition } ∧
    cancelBooking rand0 0 cancelledBooking =
      { booking := cancelledBooking, error := some TransitionError.invalidTransition } := by
  have h := claim_C4_transition_guards rand0 0 none cancelledBooking
  exact ⟨h.2.1 (by decide), h.2.2.2.1 (Or.inr rfl)⟩

/-- Claim C5, amended: when a guard holds the transition applies its
effects (confirm sets `confirmed` + `confirmation_date`; cancel sets
`cancelled` + `cancellation_date` after which confirm fails; start sets
`in_progress` + `actual_start_time`; complete sets `completed`,
`actual_end_time`, `completion_date` and, when the caller supplies a
NONZERO `final_price`, stores it and recomputes `total_amount`; a
supplied `final_price` of zero is ignored by the truthiness check). -/
theorem claim_C5_transition_effects (rand : Fin 8 → Fin 36) (now : Nat)
    (fp : Option Money) (b : Booking) :
    (b.status = BookingStatus.pending →
      (confirmBooking rand now b).error = none ∧
      (confirmBooking rand now b).booking.status = BookingStatus.confirmed ∧
      (confirmBooking rand now b).booking.confirmation_date = some now) ∧
    (b.status ≠ BookingStatus.completed ∧ b.status ≠ BookingStatus.cancelled →
      (cancelBooking rand now b).error = none ∧
      (cancelBooking rand now b).booking.status = BookingStatus.cancelled ∧
      (cancelBooking rand now b).booking.cancellation_date = some now ∧
      ∀ now2, (confirmBooking rand now2 (cancelBooking rand now b).booking).error =
        some TransitionError.invalidTransition) ∧
    (b.status = BookingStatus.confirmed →
      (startService rand now b).error = none ∧
      (startService rand now b).booking.status = BookingStatus.in_progress ∧
      (startService rand now b).booking.actual_start_time = some now) ∧
    (b.status = BookingStatus.in_progress →
      (completeService rand now fp b).error = none ∧
      (completeService rand now fp b).booking.status = BookingStatus.completed ∧
      (completeService rand now fp b).booking.actual_end_time = some now ∧
      (completeService rand now fp b).booking.completion_date = some now ∧
      (∀ v : Money, fp = some v → v ≠ 0 →
        (completeService rand now fp b).booking.final_price = some v ∧
        (completeService rand now fp b).booking.total_amount =
          v + b.travel_charge + b.material_cost + b.taxes)) := by
  refine ⟨?_, ?_, ?_, ?_⟩
  · intro h
    refine ⟨by simp [confirmBooking, h], ?_, ?_⟩
    · simp [confirmBooking, h, bookingSave_status]
    · simp [confirmBooking, h, bookingSave_confirmation_date]
  · intro h
    have hcond : ¬ (b.status = BookingStatus.completed ∨
        b.status = BookingStatus.cancelled) := by
      intro hc
      rcases hc with hc | hc
      · exact h.1 hc
      · exact h.2 hc
    have hs : (cancelBooking rand now b).booking.status = BookingStatus.cancelled := by
      simp [cancelBooking, hcond, bookingSave_status]
    refine ⟨by simp [cancelBooking, hcond], hs, ?_, ?_⟩
    · simp [cancelBooking, hcond, bookingSave_cancellation_date]
    · intro now2
      simp [confirmBooking, hs]
  · intro h
    refine ⟨by simp [startService, h], ?_, ?_⟩
    · simp [startService, h, bookingSave_status]
    · simp [startService, h, bookingSave_actual_start_time]
  · intro h
    refine ⟨by simp [completeService, h], ?_, ?_, ?_, ?_⟩
    · simp [completeService, h, bookingSave_status]
    · simp [completeService, h, bookingSave_actual_end_time]
    · simp [completeService, h, bookingSave_completion_date]
    · intro v hfp hv
      subst hfp
      have ht : moneyTruthy (some v) = true := by simp [moneyTruthy, hv]
      constructor
      · simp [completeService, h, ht, bookingSave_final_price]
      · simp [completeService, h, ht, bookingSave_total, pyOrMoney, hv]

/-- An in-progress booking fixture. -/
def inProgressBooking : Booking :=
  { baseBooking with status := BookingStatus.in_progress }

/-- Claim C5 counterexample: completing with a SUPPLIED `final_price`
of `0` succeeds but does not store it — the Python truthiness check
`if final_price:` drops a zero amount, contradicting the claim that a
supplied `final_price` is always stored. -/
theorem claim_C5_counterexample :
    (completeService rand0 7 (some 0) inProgressBooking).error = none ∧
    (completeService rand0 7 (some 0) inProgressBooking).booking.final_price ≠ some 0 := by
  have ht : moneyTruthy (some (0 : Money)) = false := by simp [moneyTruthy]
  constructor
  · simp [completeService, inProgressBooking, baseBooking]
  · simp [completeService, inProgressBooking, baseBooking, ht, bookingSave_final_price]

/-- The spec section 8 completion-scenario booking: in progress, travel
charge 5.00, material cost 0, taxes 0. -/
def inProgress70 : Booking :=
  { baseBooking with status := BookingStatus.in_progress, travel_charge := 5 }

/-- Claim C5 witness at concrete inputs: confirm moves the pending
fixture to `confirmed`, and complete with `final_price = 70.00` on a
booking with `travel_charge = 5.00` yields `total_amount = 75.00`. -/
theorem claim_C5_witness :
    (confirmBooking rand0 3 baseBooking).booking.status = BookingStatus.confirmed ∧
    (completeService rand0 9 (some 70) inProgress70).booking.final_price = some 70 ∧
    (completeService rand0 9 (some 70) inProgress70).booking.total_amount = 75 := by
  have h1 := claim_C5_transition_effects rand0 3 (some 70) baseBooking
  have h2 := claim_C5_transition_effects rand0 9 (some 70) inProgress70
  refine ⟨(h1.1 rfl).2.1, ?_, ?_⟩
  · exact ((h2.2.2.2 rfl).2.2.2.2 70 rfl (by norm_num)).1
  · have ht := ((h2.2.2.2 rfl).2.2.2.2 70 rfl (by norm_num)).2
    rw [ht]
    norm_num [inProgress70, baseBooking]

/-- Claim C3, evaluated at the failing input: booking the hourly
service (rate 50.00) for the 1.5-hour window 09:00-10:30 against a
covering slot succeeds with `quoted_price = 50` — one hour, from
`end_time.hour - start_time.hour` — while the claimed
`hourly_rate × ceil(duration_hours)` policy demands `100`. -/
theorem claim_C3_hourly_truncation :
    (createBooking rand0 0 100 "u1" wideState req9to1030).error = none ∧
    ((createBooking rand0 0 100 "u1" wideState req9to1030).booking.map
        Booking.quoted_price) = some 50 ∧
    specHourlyQuote 50 req9to1030.scheduled_start_time
        req9to1030.scheduled_end_time = 100 ∧
    (50 : Money) ≠ 100 := by
  refine ⟨?_, ?_, ?_, by norm_num⟩ <;>
    norm_num [createBooking, wideState, req9to1030, hourlyService, provider1,
      slot9to11, slotQualifies, quotePrice, bookingSave, pyOrMoney,
      specHourlyQuote, List.find?, List.any]

/-- Claim C10: a booking request whose date is before the current date,
or whose start time is not strictly before its end time, is rejected
with no booking created and the store untouched, whatever slots
exist. -/
theorem claim_C10_basic_validation (rand : Fin 8 → Fin 36) (nowTs : Nat)
    (today : Day) (userId : String) (st : MarketState) (req : BookingRequest)
    (h : req.scheduled_date < today ∨
      req.scheduled_end_time ≤ req.scheduled_start_time) :
    (createBooking rand nowTs today userId st req).error.isSome = true ∧
    (createBooking rand nowTs today userId st req).state = st ∧
    (createBooking rand nowTs today userId st req).booking = none := by
  unfold createBooking
  cases hf : st.services.find? (fun s => s.serviceId == req.serviceId) with
  | none => simp
  | some svc =>
    by_cases h1 : req.scheduled_date < today
    · simp [h1]
    · have h2 : req.scheduled_end_time ≤ req.scheduled_start_time :=
        h.resolve_left h1
      simp [h1, h2]

/-- Claim C10 witness at a concrete input: on day 200 the day-100
request is in the past and gets rejected even though a bookable slot
covers its window exactly. -/
theorem claim_C10_witness :
    baseState.slots.any (slotQualifies 10 req9to10) = true ∧
    (createBooking rand0 0 200 "u1" baseState req9to10).error.isSome = true ∧
    (createBooking rand0 0 200 "u1" baseState req9to10).state = baseState ∧
    (createBooking rand0 0 200 "u1" baseState req9to10).booking = none := by
  refine ⟨by decide, ?_⟩
  exact claim_C10_basic_validation rand0 0 200 "u1" baseState req9to10
    (Or.inl (by norm_num [req9to10]))

/-- `createBooking` writes only the bookings table: providers, services
and slots come out exactly as they went in. -/
theorem createBooking_preserves_tables (rand : Fin 8 → Fin 36) (nowTs : Nat)
    (today : Day) (userId : String) (st : MarketState) (req : BookingRequest) :
    (createBooking rand nowTs today userId st req).state.providers = st.providers ∧
    (createBooking rand nowTs today userId st req).state.services = st.services ∧
    (createBooking rand nowTs today userId st req).state.slots = st.slots := by
  unfold createBooking
  cases hf : st.services.find? (fun s => s.serviceId == req.serviceId) with
  | none => simp
  | some svc =>
    by_cases h1 : req.scheduled_date < today
    · simp [h1]
    · by_cases h2 : req.scheduled_end_time ≤ req.scheduled_start_time
      · simp [h1, h2]
      · by_cases h3 : st.slots.any (slotQualifies svc.serviceId req)
        · cases hp : st.providers.find? (fun p => p.providerId == svc.providerId) with
          | none => simp [h1, h2, h3, hp]
          | some prov =>
            cases hq : quotePrice svc req.scheduled_start_time req.scheduled_end_time with
            | none => simp [h1, h2, h3, hp, hq]
            | some q => simp [h1, h2, h3, hp, hq]
        · simp [h1, h2, h3]

/-- The outcome of `createBooking` depends on the store only through
the providers, services and slots tables, never through the bookings
already present. -/
theorem createBooking_error_reads (rand : Fin 8 → Fin 36) (nowTs : Nat)
    (today : Day) (userId : String) (st st' : MarketState) (req : BookingRequest)
    (hsvc : st'.services = st.services) (hsl : st'.slots = st.slots)
    (hpr : st'.providers = st.providers) :
    (createBooking rand nowTs today userId st' req).error =
      (createBooking rand nowTs today userId st req).error := by
  unfold createBooking
  rw [hsvc, hsl, hpr]
  cases hf : st.services.find? (fun s => s.serviceId == req.serviceId) with
  | none => rfl
  | some svc =>
    by_cases h1 : req.scheduled_date < today
    · simp [h1]
    · by_cases h2 : req.scheduled_end_time ≤ req.scheduled_start_time
      · simp [h1, h2]
      · by_cases h3 : st.slots.any (slotQualifies svc.serviceId req)
        · cases hp : st.providers.find? (fun p => p.providerId == svc.providerId) with
          | none => simp [h1, h2, h3, hp]
          | some prov =>
            cases hq : quotePrice svc req.scheduled_start_time req.scheduled_end_time with
            | none => simp [h1, h2, h3, hp, hq]
            | some q => simp [h1, h2, h3, hp, hq]
        · simp [h1, h2, h3]

/-- Claim C1, refuted by the code: a successful booking creation leaves
the slot table untouched (no slot is marked `is_available = False`),
and the identical follow-up request for the same window succeeds
again instead of being rejected. -/
theorem claim_C1_slot_not_consumed (rand : Fin 8 → Fin 36) (nowTs : Nat)
    (today : Day) (userId : String) (st : MarketState) (req : BookingRequest)
    (h : (createBooking rand nowTs today userId st req).error = none) :
    (createBooking rand nowTs today userId st req).state.slots = st.slots ∧
    (createBooking rand nowTs today userId
        (createBooking rand nowTs today userId st req).state req).error = none := by
  obtain ⟨hp, hs, hsl⟩ :=
    createBooking_preserves_tables rand nowTs today userId st req
  refine ⟨hsl, ?_⟩
  rw [createBooking_error_reads rand nowTs today userId st
    (createBooking rand nowTs today userId st req).state req hs hsl hp, h]

/-- Claim C1 witness at the spec section 8 scenario: day-100 slot
09:00-10:00, hourly service; the 09:00-10:00 request books twice in a
row against the very same slot. -/
theorem claim_C1_witness :
    (createBooking rand0 0 100 "u1" baseState req9to10).state.slots = baseState.slots ∧
    (createBooking rand0 0 100 "u1"
        (createBooking rand0 0 100 "u1" baseState req9to10).state req9to10).error = none := by
  apply claim_C1_slot_not_consumed
  norm_num [createBooking, baseState, req9to10, hourlyService, provider1,
    slot9to10, slotQualifies, quotePrice, bookingSave, pyOrMoney,
    List.find?, List.any]

/-- Claim C6 counterexample: a provider-level slot (`service` foreign
key empty) covering the requested window qualifies under the claim's
definition, yet the code — which searches `service.availability`
only — rejects the request as unavailable and creates nothing. -/
theorem claim_C6_counterexample :
    (∃ sl ∈ provSlotState.slots,
      specSlotQualifies provSlotState hourlyService req9to10 sl = true) ∧
    (createBooking rand0 0 100 "u1" provSlotState req9to10).error =
      some CreateError.slotUnavailableErr ∧
    (createBooking rand0 0 100 "u1" provSlotState req9to10).booking = none := by
  refine ⟨⟨providerOnlySlot, by decide, by decide⟩, by decide, by decide⟩

/-- Claim C6, amended: provided the request resolves its service and
provider, passes the date/time validation, and the pricing field for
the service's `pricing_type` is present, the request succeeds iff some
slot attached to the requested service (provider-only slots never
qualify) covers the window and is bookable; otherwise it is rejected
as unavailable with the store untouched and no booking created. -/
theorem claim_C6_availability_iff (rand : Fin 8 → Fin 36) (nowTs : Nat)
    (today : Day) (userId : String) (st : MarketState) (req : BookingRequest)
    (svc : Service) (prov : Provider)
    (hsvc : st.services.find? (fun s => s.serviceId == req.serviceId) = some svc)
    (hdate : ¬ req.scheduled_date < today)
    (htime : req.scheduled_start_time < req.scheduled_end_time)
    (hprov : st.providers.find? (fun p => p.providerId == svc.providerId) = some prov)
    (hpricing : (quotePrice svc req.scheduled_start_time
      req.scheduled_end_time).isSome = true) :
    ((createBooking rand nowTs today userId st req).error = none ↔
      st.slots.any (slotQualifies svc.serviceId req) = true) ∧
    (st.slots.any (slotQualifies svc.serviceId req) = false →
      (createBooking rand nowTs today userId st req).error =
        some CreateError.slotUnavailableErr ∧
      (createBooking rand nowTs today userId st req).state = st ∧
      (createBooking rand nowTs today userId st req).booking = none) ∧
    ((createBooking rand nowTs today userId st req).error = none →
      ∃ b, (createBooking rand nowTs today userId st req).booking = some b ∧
        (createBooking rand nowTs today userId st req).state.bookings =
          st.bookings ++ [b]) := by
  have h2 : ¬ req.scheduled_end_time ≤ req.scheduled_start_time :=
    not_le.mpr htime
  obtain ⟨q, hq⟩ := Option.isSome_iff_exists.mp hpricing
  unfold createBooking
  rw [hsvc]
  by_cases h3 : st.slots.any (slotQualifies svc.serviceId req)
  · simp [hdate, h2, h3, hprov, hq]
  · simp [hdate, h2, h3]

/-- Claim C6 witness at a concrete input: the section 8 scenario state
has a qualifying service-level slot, so the request succeeds. -/
theorem claim_C6_witness :
    (createBooking rand0 0 100 "u1" baseState req9to10).error = none := by
  have h := claim_C6_availability_iff rand0 0 100 "u1" baseState req9to10
    hourlyService provider1 (by decide) (by decide) (by decide) (by decide)
    (by decide)
  exact h.1.mpr (by decide)

/-- Claim C7: a review is created iff the requester is the booking's
customer, the booking is completed, and no review for it exists; any
violation rejects with the store untouched; a successful submit makes
an immediate second submit fail as already-reviewed; and the
at-most-one-review-per-booking invariant is preserved. -/
theorem claim_C7_review_guards (userId : String) (st : MarketState)
    (bookingId rating : Nat) (b : Booking)
    (hb : st.bookings.find? (fun x => x.bookingId == bookingId) = some b) :
    ((submitReview userId st bookingId rating).error = none ↔
      (b.customer_user_id = userId ∧ b.status = BookingStatus.completed ∧
        st.reviews.any (fun r => r.bookingId == bookingId) = false)) ∧
    ((submitReview userId st bookingId rating).error ≠ none →
      (submitReview userId st bookingId rating).state = st ∧
      (submitReview userId st bookingId rating).review = none) ∧
    ((submitReview userId st bookingId rating).error = none →
      reviewCountFor st bookingId = 0 ∧
      reviewCountFor (submitReview userId st bookingId rating).state bookingId = 1 ∧
      (submitReview userId (submitReview userId st bookingId rating).state
          bookingId rating).error = some ReviewError.alreadyReviewed) ∧
    ((∀ bid, reviewCountFor st bid ≤ 1) →
      ∀ bid, reviewCountFor (submitReview userId st bookingId rating).state bid ≤ 1) := by
  by_cases g1 : b.customer_user_id = userId
  case neg =>
    simp [submitReview, hb, g1]
  case pos =>
  by_cases g2 : b.status = BookingStatus.completed
  case neg =>
    simp [submitReview, hb, g1, g2]
  case pos =>
  by_cases g3 : st.reviews.any (fun r => r.bookingId == bookingId) = true
  case pos =>
    simp [submitReview, hb, g1, g2, g3]
  case neg =>
    have g3f : st.reviews.any (fun r => r.bookingId == bookingId) = false :=
      Bool.eq_false_iff.mpr g3
    have hcount0 : reviewCountFor st bookingId = 0 := by
      have hnil : st.reviews.filter (fun r => r.bookingId == bookingId) = [] := by
        rw [List.filter_eq_nil_iff]
        intro a ha
        have h := List.any_eq_false.mp g3f a ha
        simpa using h
      simp [reviewCountFor, hnil]
    refine ⟨by simp [submitReview, hb, g1, g2, g3f], ?_, ?_, ?_⟩
    · simp [submitReview, hb, g1, g2, g3f]
    · intro _
      refine ⟨hcount0, ?_, ?_⟩
      · simp [submitReview, hb, g1, g2, g3f, reviewCountFor,
          List.filter_append]
        simpa [reviewCountFor] using hcount0
      · simp [submitReview, hb, g1, g2, g3f]
    · intro hinv bid
      simp only [submitReview, hb, g1, g2, g3f]
      by_cases hbid : bookingId = bid
      · subst hbid
        simp [reviewCountFor, List.filter_append, hcount0]
        simpa [reviewCountFor] using hcount0
      · have : ((⟨st.reviews.length, bookingId, b.serviceId, b.providerId,
          userId, rating, true⟩ : Review).bookingId == bid) = false := by
          simpa using hbid
        simp [reviewCountFor, List.filter_append, this]
        exact hinv bid

/-- A completed booking fixture, reviewable by user `u1`. -/
def completedBooking : Booking :=
  { baseBooking with status := BookingStatus.completed }

/-- A store holding the completed booking and no reviews yet. -/
def reviewState : MarketState :=
  { providers := [provider1], services := [hourlyService]
    slots := [slot9to10], bookings := [completedBooking], reviews := [] }

/-- Claim C7 witness at a concrete input: the first submit on the
completed booking succeeds; the immediate second submit is rejected as
already reviewed. -/
theorem claim_C7_witness :
    (submitReview "u1" reviewState 0 5).error = none ∧
    (submitReview "u1" (submitReview "u1" reviewState 0 5).state 0 5).error =
      some ReviewError.alreadyReviewed := by
  have h := claim_C7_review_guards "u1" reviewState 0 5 completedBooking (by decide)
  have hok : (submitReview "u1" reviewState 0 5).error = none :=
    h.1.mpr (by decide)
  exact ⟨hok, (h.2.2.1 hok).2.2⟩

/-- Claim C8, evaluated at the failing input: submitting the only
(rating-5, published) review for the completed booking succeeds, yet
the services and providers tables come out identical — the stored
`total_reviews` stays `0` against a published-review count of `1`, and
the stored `average_rating` stays `0` against a published mean of `5`;
no rating aggregation happens anywhere in the codebase. -/
theorem claim_C8_aggregates_stale :
    (submitReview "u1" reviewState 0 5).error = none ∧
    (submitReview "u1" reviewState 0 5).state.services = reviewState.services ∧
    (submitReview "u1" reviewState 0 5).state.providers = reviewState.providers ∧
    publishedServiceRatings (submitReview "u1" reviewState 0 5).state 10 = [5] ∧
    ((submitReview "u1" reviewState 0 5).state.services.find?
        (fun s => s.serviceId == 10)).map Service.total_reviews = some 0 ∧
    ((submitReview "u1" reviewState 0 5).state.services.find?
        (fun s => s.serviceId == 10)).map Service.average_rating = some 0 ∧
    ((submitReview "u1" reviewState 0 5).state.providers.find?
        (fun p => p.providerId == 1)).map Provider.total_reviews = some 0 ∧
    (0 : Nat) ≠ (publishedServiceRatings (submitReview "u1" reviewState 0 5).state 10).length ∧
    (0 : Money) ≠ 5 := by
  refine ⟨by decide, by decide, by decide, by decide, by decide, by decide,
    by decide, by decide, by norm_num⟩

end AkwaServices
